import Mathlib

/-!
# Verification of the NAS-PED evaluation pipeline

A shallow embedding of the CityPersons evaluation code of the NAS-PED
repository: the `CityPersonMetric` evaluator
(`mmdet/evaluation/metrics/cityperson_metric.py`) and the dataset adapters
(`mmdet/datasets/cityperson.py`, `mmdet/datasets/coco_person.py`).

Numeric box coordinates and scores are modelled as rationals (`ℚ`); the
claims under study are algebraic/structural and do not hinge on float
rounding.  File-system effects (json dumps, temporary directories) are made
explicit: a function that writes a file returns the path and the written
content, and the fresh temporary-directory name is a parameter.
-/

namespace NASPED

/-- A bounding box in `xyxy` form: corners `(x1, y1)` and `(x2, y2)`. -/
structure Box where
  x1 : ℚ
  y1 : ℚ
  x2 : ℚ
  y2 : ℚ
deriving DecidableEq, Repr, Inhabited

/-- `CityPersonMetric.xyxy2xywh` (cityperson_metric.py lines 119-137):
converts an `xyxy` box to the COCO `[x, y, w, h]` list.
`CityPersonDataset.xyxy2xywh` (cityperson.py lines 310-317) is the same code. -/
def xyxy2xywh (b : Box) : List ℚ :=
  [b.x1, b.y1, b.x2 - b.x1, b.y2 - b.y1]

/-- The inverse direction used by the spec claim and by
`parse_data_info` (`bbox = [x1, y1, x1 + w, y1 + h]`): rebuild an `xyxy`
box from an `[x, y, w, h]` list. -/
def xywh2xyxy (l : List ℚ) : Box :=
  { x1 := l.getD 0 0
    y1 := l.getD 1 0
    x2 := l.getD 0 0 + l.getD 2 0
    y2 := l.getD 1 0 + l.getD 3 0 }

/-- `allowed_metrics = ['MR']` (cityperson_metric.py line 83). -/
def allowed_metrics : List String := ["MR"]

/-- The metric-validation loop of `CityPersonMetric.__init__`
(cityperson_metric.py lines 82-87): for each requested metric name, raise
`KeyError` unless it is in `allowed_metrics`. -/
def checkMetrics : List String → Except String Unit
  | [] => Except.ok ()
  | m :: rest =>
    if m ∈ allowed_metrics then checkMetrics rest
    else Except.error ("metric should be one of MR, AP, JI, but got " ++ m ++ ".")

/-- `metric if isinstance(metric, list) else [metric]`
(cityperson_metric.py line 82): the `metric` argument is a string or a
list of strings. -/
inductive MetricArg where
  | single (m : String)
  | multi (ms : List String)

/-- The list `self.metrics` built by `__init__` from the `metric` argument. -/
def metricsOf : MetricArg → List String
  | MetricArg.single m => [m]
  | MetricArg.multi ms => ms

/-- A raw COCO annotation as consumed by `parse_data_info`: the fields the
code reads (`ignore`, `bbox` as `x, y, w, h`, `category_id`, `iscrowd`). -/
structure RawAnn where
  ignore : Bool
  x : ℚ
  y : ℚ
  w : ℚ
  h : ℚ
  category_id : ℤ
  iscrowd : Bool
deriving DecidableEq, Repr, Inhabited

/-- Raw image info as consumed by `parse_data_info` (`file_name`, `width`,
`height`; the `img_id` key is overwritten by `load_data_list` and passed
separately here). -/
structure RawImg where
  file_name : String
  width : ℚ
  height : ℚ
deriving DecidableEq, Repr, Inhabited

/-- A parsed instance produced by `parse_data_info`. -/
structure Instance where
  ignore_flag : ℕ
  bbox : List ℚ
  bbox_label : ℕ
deriving DecidableEq, Repr, Inhabited

/-- The parsed `data_info` dict produced by `parse_data_info`.
`seg_map_path` is `none` whenever `data_prefix` has no `seg` entry, which
holds for every config of this repository. -/
structure DataInfo where
  img_path : String
  img_id : ℤ
  seg_map_path : Option String
  height : ℚ
  width : ℚ
  instances : List Instance
deriving DecidableEq, Repr, Inhabited

/-- `os.path.join` for a directory and a file name, up to separator
normalization (an empty first component yields the second alone). -/
def osJoin (p f : String) : String := if p = "" then f else p ++ "/" ++ f

/-- `inter_w` of `parse_data_info`
(`max(0, min(x1 + w, width) - max(x1, 0))`): width of the clipped
intersection of the annotation box with the image rectangle. -/
def interW (img : RawImg) (ann : RawAnn) : ℚ :=
  max 0 (min (ann.x + ann.w) img.width - max ann.x 0)

/-- `inter_h` of `parse_data_info`
(`max(0, min(y1 + h, height) - max(y1, 0))`). -/
def interH (img : RawImg) (ann : RawAnn) : ℚ :=
  max 0 (min (ann.y + ann.h) img.height - max ann.y 0)

/-- The instance-parsing loop of `CityPersonDataset.parse_data_info`
(cityperson.py lines 132-159): skip annotations flagged `ignore`, skip
annotations whose clipped intersection with the image rectangle has zero
area, skip unknown category ids; otherwise emit an instance with
`ignore_flag` 1 iff `iscrowd`, the bbox converted to `xyxy`, and the label
`cat2label[category_id]` (the index of the category id in `cat_ids`). -/
def cityPersonParseInstances (cat_ids : List ℤ) (img : RawImg) :
    List RawAnn → List Instance
  | [] => []
  | ann :: rest =>
    let tail := cityPersonParseInstances cat_ids img rest
    if ann.ignore then tail
    else if interW img ann * interH img ann = 0 then tail
    else if ann.category_id ∉ cat_ids then tail
    else
      { ignore_flag := if ann.iscrowd then 1 else 0
        bbox := [ann.x, ann.y, ann.x + ann.w, ann.y + ann.h]
        bbox_label := cat_ids.indexOf ann.category_id } :: tail

/-- The instance-parsing loop of `CocoPersonDataset.parse_data_info`
(coco_person.py lines 99-126); the code is identical to the CityPersons
one. -/
def cocoPersonParseInstances (cat_ids : List ℤ) (img : RawImg) :
    List RawAnn → List Instance
  | [] => []
  | ann :: rest =>
    let tail := cocoPersonParseInstances cat_ids img rest
    if ann.ignore then tail
    else if interW img ann * interH img ann = 0 then tail
    else if ann.category_id ∉ cat_ids then tail
    else
      { ignore_flag := if ann.iscrowd then 1 else 0
        bbox := [ann.x, ann.y, ann.x + ann.w, ann.y + ann.h]
        bbox_label := cat_ids.indexOf ann.category_id } :: tail

/-- `CityPersonDataset.parse_data_info` (cityperson.py lines 104-161). -/
def cityPersonParseDataInfo (cat_ids : List ℤ) (dataPfxImg : String)
    (img_id : ℤ) (img : RawImg) (anns : List RawAnn) : DataInfo :=
  { img_path := osJoin dataPfxImg img.file_name
    img_id := img_id
    seg_map_path := none
    height := img.height
    width := img.width
    instances := cityPersonParseInstances cat_ids img anns }

/-- `CocoPersonDataset.parse_data_info` (coco_person.py lines 71-128). -/
def cocoPersonParseDataInfo (cat_ids : List ℤ) (dataPfxImg : String)
    (img_id : ℤ) (img : RawImg) (anns : List RawAnn) : DataInfo :=
  { img_path := osJoin dataPfxImg img.file_name
    img_id := img_id
    seg_map_path := none
    height := img.height
    width := img.width
    instances := cocoPersonParseInstances cat_ids img anns }

/-- The inclusion condition of the C5 claim, stated independently of the
parsing loop: the annotation is not flagged ignore, its bbox has a
positive-area intersection with the image rectangle, and its category id
is among the known category ids. -/
def includedAnn (cat_ids : List ℤ) (img : RawImg) (ann : RawAnn) : Bool :=
  !ann.ignore
    && decide (0 < interW img ann * interH img ann)
    && decide (ann.category_id ∈ cat_ids)

/-- The instance the C5 claim describes for an included annotation:
`ignore_flag` 1 exactly when `iscrowd`, bbox converted from
`[x, y, w, h]` to `[x, y, x + w, y + h]`. -/
def claimedInstance (cat_ids : List ℤ) (ann : RawAnn) : Instance :=
  { ignore_flag := if ann.iscrowd then 1 else 0
    bbox := [ann.x, ann.y, ann.x + ann.w, ann.y + ann.h]
    bbox_label := cat_ids.indexOf ann.category_id }

/-- One image entry as delivered by the COCO api inside `load_data_list`:
the image id (from `get_img_ids`, in api order), its raw image info
(`load_imgs`), and its annotations paired with their annotation ids
(`get_ann_ids` / `load_anns`). -/
structure CocoImgEntry where
  img_id : ℤ
  info : RawImg
  anns : List (ℤ × RawAnn)
deriving DecidableEq, Repr, Inhabited

/-- `total_ann_ids` accumulated by `load_data_list`: the annotation ids of
all images, concatenated in order. -/
def totalAnnIds (entries : List CocoImgEntry) : List ℤ :=
  (entries.map (fun e => e.anns.map Prod.fst)).flatten

/-- `CityPersonDataset.load_data_list` (cityperson.py lines 62-102): parse
every image entry in api order, then assert that the collected annotation
ids are pairwise distinct (`len(set(total_ann_ids)) == len(total_ann_ids)`,
modelled as `dedup` length); the failed assert is the error case. -/
def cityPersonLoadDataList (cat_ids : List ℤ) (dataPfxImg : String)
    (ann_file : String) (entries : List CocoImgEntry) :
    Except String (List DataInfo) :=
  let data_list := entries.map (fun e =>
    cityPersonParseDataInfo cat_ids dataPfxImg e.img_id e.info
      (e.anns.map Prod.snd))
  if (totalAnnIds entries).dedup.length = (totalAnnIds entries).length
  then Except.ok data_list
  else Except.error ("Annotation ids in " ++ ann_file ++ " are not unique!")

/-- `CocoPersonDataset.load_data_list` (coco_person.py lines 29-69);
identical code to the CityPersons one. -/
def cocoPersonLoadDataList (cat_ids : List ℤ) (dataPfxImg : String)
    (ann_file : String) (entries : List CocoImgEntry) :
    Except String (List DataInfo) :=
  let data_list := entries.map (fun e =>
    cocoPersonParseDataInfo cat_ids dataPfxImg e.img_id e.info
      (e.anns.map Prod.snd))
  if (totalAnnIds entries).dedup.length = (totalAnnIds entries).length
  then Except.ok data_list
  else Except.error ("Annotation ids in " ++ ann_file ++ " are not unique!")

/-- A per-image detection result as assembled by `CityPersonMetric.process`
(cityperson_metric.py lines 304-310): `img_id` is optional because
`format_results` falls back to the enumeration index via
`result.get('img_id', idx)`; `labels`, `bboxes` and `scores` are the
per-detection arrays. -/
structure DetResult where
  img_id : Option ℤ
  labels : List ℤ
  bboxes : List Box
  scores : List ℚ
deriving DecidableEq, Repr, Inhabited

/-- One record of the canonical COCO-style json output. -/
structure JsonRecord where
  image_id : ℤ
  bbox : List ℚ
  score : ℚ
  category_id : ℤ
deriving DecidableEq, Repr, Inhabited

/-- The record-building loop of `CityPersonMetric.format_results`
(cityperson_metric.py lines 228-240): for each image (enumerated from 0),
for each detection index `i` below `len(labels)`, one record with
`image_id = result.get('img_id', idx)`, the bbox converted to `xywh`, the
score cast to float, and `category_id = 1` regardless of the label.
The accesses `bboxes[i]` and `scores[i]` are modelled with `getD`; the
theorem about this loop assumes the three arrays have one entry per
detection, as the arrays built by `process` do. -/
def formatImageRecords (idx : ℕ) (r : DetResult) : List JsonRecord :=
  (List.range r.labels.length).map (fun i =>
    { image_id := r.img_id.getD (idx : ℤ)
      bbox := xyxy2xywh (r.bboxes.getD i default)
      score := r.scores.getD i 0
      category_id := 1 })

/-- The full `res` list accumulated by `CityPersonMetric.format_results`
over all images. -/
def formatRecords (results : List DetResult) : List JsonRecord :=
  (results.enum.map (fun p => formatImageRecords p.1 p.2)).flatten

/-- `CityPersonMetric.format_results` (cityperson_metric.py lines 204-244)
with file-system effects made explicit: `tmpName` stands for the name of
the temporary directory `tempfile.TemporaryDirectory()` would create; the
value is (returned json path, returned tmp_dir, written file as a
(path, content) pair — `json.dump` writes the records to exactly one
file). -/
def metricFormatResults (tmpName : String) (results : List DetResult)
    (jsonfilePfx : Option String) :
    String × Option String × (String × List JsonRecord) :=
  let pfx := match jsonfilePfx with
    | none => osJoin tmpName "results"
    | some p => p
  let tmp_dir : Option String := match jsonfilePfx with
    | none => some tmpName
    | some _ => none
  let res := formatRecords results
  let path := pfx ++ ".bbox.json"
  (path, tmp_dir, (path, res))

/-- The record-building loop of `CityPersonDataset.format_results`
(cityperson.py lines 453-467): each image's box array (N×5 rows, after the
`boxes[0]` unwrapping) gets `boxes[:, [2, 3]] -= boxes[:, [0, 1]]` applied,
then every row yields a record with `image_id = id + 1`, `category_id = 1`,
the first four entries as bbox and the fifth as score.  A row is modelled
as a length-5 list of rationals. -/
def dsFormatRecords (results : List (List (List ℚ))) : List JsonRecord :=
  (results.enum.map (fun p =>
    p.2.map (fun box =>
      { image_id := (p.1 : ℤ) + 1
        category_id := 1
        bbox := [box.getD 0 0, box.getD 1 0, box.getD 2 0 - box.getD 0 0,
                 box.getD 3 0 - box.getD 1 0]
        score := box.getD 4 0 }))).flatten

/-- `CityPersonDataset.format_results` (cityperson.py lines 429-471):
first `assert len(results) == len(self)` (line 444; `datasetLen` models
`len(self)`, the failed assert is the error case — nothing is written
then), then the same prefix/temporary-directory handling as the metric
version, writing the dataset-style records. -/
def datasetFormatResults (datasetLen : ℕ) (tmpName : String)
    (results : List (List (List ℚ))) (jsonfilePfx : Option String) :
    Except String (String × Option String × (String × List JsonRecord)) :=
  if results.length = datasetLen then
    let pfx := match jsonfilePfx with
      | none => osJoin tmpName "results"
      | some p => p
    let tmp_dir : Option String := match jsonfilePfx with
      | none => some tmpName
      | some _ => none
    let res := dsFormatRecords results
    let path := pfx ++ ".bbox.json"
    Except.ok (path, tmp_dir, (path, res))
  else
    Except.error "The length of results is not equal to the dataset len"

/-- The ground-truth record assembled by `CityPersonMetric.process`
(cityperson_metric.py lines 314-317); `compute_metrics` unzips it away
without reading it. -/
structure GtRecord where
  width : ℚ
  height : ℚ
  img_id : ℤ
deriving DecidableEq, Repr, Inhabited

/-- The calls `compute_metrics` makes on the COCO evaluation api, in
order, for one pass of its setup loop. -/
inductive EvalEvent where
  | loadGT (ann_file : String)
  | loadRes (result_file : String)
  | evaluate (id_setup : ℕ)
  | accumulate
  | summarize (id_setup : ℕ)
deriving DecidableEq, Repr

/-- The trace of the body of the `for id_setup in range(0, 4)` loop of
`compute_metrics` (cityperson_metric.py lines 271-282): construct
`COCO(ann_file)`, load the detection json, `evaluate(id_setup)`,
`accumulate()`, `summarize_nofile(id_setup)`. -/
def evalSetupTrace (ann_file result_file : String) (id_setup : ℕ) :
    List EvalEvent :=
  [EvalEvent.loadGT ann_file, EvalEvent.loadRes result_file,
   EvalEvent.evaluate id_setup, EvalEvent.accumulate,
   EvalEvent.summarize id_setup]

/-- `CityPersonMetric.compute_metrics` (cityperson_metric.py lines
246-290).  The numeric core of one setup — `COCOeval` of
`eval_MR_multisetup.py`, code of this repository that is not under src/ —
is modelled from the spec as an abstract summarizer `mr recs id_setup`:
the summarized scalar Miss-Rate-at-FPPI of setup `id_setup` on the
detection records `recs` it loads back from the written json file (the
CityPersons/Caltech-style metric); the calls made on it are recorded in
the event trace.  `tmpName` is the fresh temporary-directory name used by
`format_results`, since `outfile_prefix = None` is passed.  The result is
`none` when the initial `gts, preds = zip(*results)` unpacking fails,
which happens exactly on an empty results list; otherwise it is the event
trace paired with the metric dictionary (an association list in insertion
order). -/
def computeMetrics (mr : List JsonRecord → ℕ → ℚ) (ann_file tmpName : String)
    (results : List (GtRecord × DetResult)) :
    Option (List EvalEvent × List (String × ℚ)) :=
  if results.isEmpty then none
  else
    let preds := results.map Prod.snd
    let fmt := metricFormatResults tmpName preds none
    let result_file := fmt.1
    let recs := fmt.2.2.2
    let steps := (List.range 4).map (fun id_setup =>
      (evalSetupTrace ann_file result_file id_setup, mr recs id_setup))
    let mean_MR := steps.map Prod.snd
    some ((steps.map Prod.fst).flatten,
      [("Reasonable", mean_MR.getD 0 0),
       ("Reasonable_small", mean_MR.getD 1 0),
       ("Reasonable_occ=heavy", mean_MR.getD 2 0),
       ("all", mean_MR.getD 3 0)])

/-- Modelled from the spec: `bbox_overlaps(dt_boxes, gt_boxes, mode='iof')`
(`mmdet/evaluation/functional/bbox_overlaps.py`, not under src/) — the
intersection-over-foreground overlap: the area of the intersection of the
two boxes divided by the area of the foreground (detection) box.  Rational
division by zero is 0 (the source clamps the denominator with a small
eps instead). -/
def iofOverlap (dt gt : Box) : ℚ :=
  (max 0 (min dt.x2 gt.x2 - max dt.x1 gt.x1)
      * max 0 (min dt.y2 gt.y2 - max dt.y1 gt.y1))
    / ((dt.x2 - dt.x1) * (dt.y2 - dt.y1))

/-- The attributes assigned by `CityPersonMetric.__init__`
(cityperson_metric.py lines 69-116) that the rest of the class reads
(metric-name validation is `checkMetrics` above).  The docstring
advertises an `iou_thres` argument with default 0.5, but `__init__`
neither accepts nor assigns it, so the attribute is modelled as an
`Option` that construction leaves at `none`; reading an absent attribute
is Python's `AttributeError`. -/
structure MetricState where
  ann_file : String
  metrics : List String
  format_only : Bool
  outfilePfx : Option String
  iou_thres : Option ℚ
deriving DecidableEq, Repr

/-- The attribute assignments of `CityPersonMetric.__init__`. -/
def initMetricState (ann_file : String) (metric : MetricArg)
    (format_only : Bool) (outfilePfx : Option String) : MetricState :=
  { ann_file := ann_file
    metrics := metricsOf metric
    format_only := format_only
    outfilePfx := outfilePfx
    iou_thres := none }

/-- `CityPersonMetric.get_ignores` (cityperson_metric.py lines 344-352):
for a nonempty ground-truth array, take the per-detection maximum
intersection-over-foreground overlap against the ground-truth boxes and
count the detections strictly above `self.iou_thres`; reading
`self.iou_thres` raises `AttributeError` when the attribute was never
assigned.  An empty ground-truth array returns 0 before any attribute
read. -/
def getIgnores (st : MetricState) (dt_boxes gt_boxes : List Box) :
    Except String ℕ :=
  if gt_boxes.isEmpty then Except.ok 0
  else
    match st.iou_thres with
    | none => Except.error "AttributeError: iou_thres"
    | some thr =>
      let ioas := dt_boxes.map (fun dt =>
        ((gt_boxes.map (iofOverlap dt)).max?).getD 0)
      Except.ok (ioas.filter (fun v => decide (thr < v))).length

/-- Intersection-over-union of two boxes: intersection area over union
area (rational division by zero is 0). -/
def iouOverlap (a b : Box) : ℚ :=
  (max 0 (min a.x2 b.x2 - max a.x1 b.x1)
      * max 0 (min a.y2 b.y2 - max a.y1 b.y1))
    / ((a.x2 - a.x1) * (a.y2 - a.y1) + (b.x2 - b.x1) * (b.y2 - b.y1)
        - max 0 (min a.x2 b.x2 - max a.x1 b.x1)
          * max 0 (min a.y2 b.y2 - max a.y1 b.y1))

/-- Modelled from the spec: the ground-truth candidate scan of the
per-image matcher (`eval_MR_multisetup.COCOeval`, code of this repository
that is not under src/).  For one detection, scan the indexed ground-truth
candidates keeping the one of best IoU so far; a candidate already matched
is skipped, a candidate below the current best overlap is skipped, and the
accumulator starts at the IoU threshold so only candidates reaching the
threshold are ever selected. -/
def pickBestAux (d : Box) (matched : List ℕ) :
    List (ℕ × Box) → Option ℕ × ℚ → Option ℕ × ℚ
  | [], acc => acc
  | g :: gs, acc =>
    if g.1 ∈ matched then pickBestAux d matched gs acc
    else if iouOverlap d g.2 < acc.2 then pickBestAux d matched gs acc
    else pickBestAux d matched gs (some g.1, iouOverlap d g.2)

/-- The unmatched ground-truth candidate assigned to one detection, if
any. -/
def pickBest (thr : ℚ) (d : Box) (gts : List (ℕ × Box))
    (matched : List ℕ) : Option ℕ :=
  (pickBestAux d matched gts (none, thr)).1

/-- The matcher's outer loop over the detections: `i` is the index of the
current detection and `matched` the ground-truth indices already
assigned; a successful assignment records the pair and marks the ground
truth as matched. -/
def greedyAux (thr : ℚ) (gts : List (ℕ × Box)) :
    List Box → ℕ → List ℕ → List (ℕ × ℕ)
  | [], _, _ => []
  | d :: ds, i, matched =>
    match pickBest thr d gts matched with
    | none => greedyAux thr gts ds (i + 1) matched
    | some g => (i, g) :: greedyAux thr gts ds (i + 1) (g :: matched)

/-- Modelled from the spec: the Caltech/CityPersons-style IoU matcher —
"Miss Rate computation via IoU matching and bipartite assignment".
Detections are given in decreasing score order (the source visits them
through `argsort(-score)`); each detection greedily takes the
still-unmatched ground truth of best IoU at or above the threshold.  The
matching property proved of it does not depend on the visiting order. -/
def greedyMatch (thr : ℚ) (dts gts : List Box) : List (ℕ × ℕ) :=
  greedyAux thr gts.enum dts 0 []

end NASPED

namespace NASPED

/-- C8: `xyxy2xywh` returns `[x1, y1, x2 - x1, y2 - y1]`, and converting
back with `(x, y, w, h) ↦ (x, y, x + w, y + h)` recovers the original box:
the conversion is a round-trip inverse. -/
theorem xyxy2xywh_roundtrip (b : Box) :
    xyxy2xywh b = [b.x1, b.y1, b.x2 - b.x1, b.y2 - b.y1] ∧
    xywh2xyxy (xyxy2xywh b) = b := by
  refine ⟨rfl, ?_⟩
  simp [xyxy2xywh, xywh2xyxy]

/-- C9: the constructor's metric validation succeeds iff every entry of
the metric list equals "MR"; in particular the names "AP" and "JI",
advertised as valid by the docstring, are rejected with a KeyError. -/
theorem init_metric_validation :
    (∀ ms : List String,
      checkMetrics ms = Except.ok () ↔ ∀ m ∈ ms, m = "MR") ∧
    (∃ e, checkMetrics (metricsOf (MetricArg.single "AP")) = Except.error e) ∧
    (∃ e, checkMetrics (metricsOf (MetricArg.single "JI")) = Except.error e) ∧
    checkMetrics (metricsOf (MetricArg.single "MR")) = Except.ok () := by
  refine ⟨?_, ⟨_, rfl⟩, ⟨_, rfl⟩, rfl⟩
  intro ms
  induction ms with
  | nil => simp [checkMetrics]
  | cons m rest ih =>
    by_cases hm' : m = "MR"
    · subst hm'
      rw [show checkMetrics ("MR" :: rest) = checkMetrics rest from if_pos (by decide)]
      rw [ih]
      simp
    · have hm : m ∉ allowed_metrics := by simp [allowed_metrics, hm']
      rw [show checkMetrics (m :: rest)
          = Except.error ("metric should be one of MR, AP, JI, but got " ++ m ++ ".")
          from if_neg hm]
      constructor
      · intro h
        exact Except.noConfusion h
      · intro h
        exact absurd (h m (List.mem_cons_self m rest)) hm'

lemma interW_nonneg (img : RawImg) (ann : RawAnn) : 0 ≤ interW img ann :=
  le_max_left 0 _

lemma interH_nonneg (img : RawImg) (ann : RawAnn) : 0 ≤ interH img ann :=
  le_max_left 0 _

lemma inter_pos_of_ne (img : RawImg) (ann : RawAnn)
    (h : interW img ann * interH img ann ≠ 0) :
    0 < interW img ann * interH img ann := by
  rcases lt_or_eq_of_le (mul_nonneg (interW_nonneg img ann) (interH_nonneg img ann))
    with hlt | heq
  · exact hlt
  · exact absurd heq.symm h

lemma city_parse_filter_map (cat_ids : List ℤ) (img : RawImg)
    (anns : List RawAnn) :
    cityPersonParseInstances cat_ids img anns
      = (anns.filter (includedAnn cat_ids img)).map (claimedInstance cat_ids) := by
  induction anns with
  | nil => rfl
  | cons ann rest ih =>
    by_cases hig : ann.ignore = true
    · have hinc : includedAnn cat_ids img ann = false := by
        simp [includedAnn, hig]
      simp [cityPersonParseInstances, hig, hinc, ih]
    · have hig' : ann.ignore = false := by
        simpa using hig
      by_cases hz : interW img ann * interH img ann = 0
      · have hinc : includedAnn cat_ids img ann = false := by
          simp [includedAnn, hz]
        simp [cityPersonParseInstances, hig', hz, hinc, ih]
      · by_cases hc : ann.category_id ∈ cat_ids
        · have hpos : 0 < interW img ann * interH img ann :=
            inter_pos_of_ne img ann hz
          have hinc : includedAnn cat_ids img ann = true := by
            simp [includedAnn, hig', hpos, hc]
          simp [cityPersonParseInstances, hig', hz, hc, hinc, ih, claimedInstance]
        · have hinc : includedAnn cat_ids img ann = false := by
            simp [includedAnn, hc]
          simp [cityPersonParseInstances, hig', hz, hc, hinc, ih]

lemma coco_parse_eq_city (cat_ids : List ℤ) (img : RawImg)
    (anns : List RawAnn) :
    cocoPersonParseInstances cat_ids img anns
      = cityPersonParseInstances cat_ids img anns := by
  induction anns with
  | nil => rfl
  | cons ann rest ih =>
    simp only [cocoPersonParseInstances, cityPersonParseInstances, ih]

/-- C5: both dataset adapters include an annotation as an instance exactly
when it is not flagged ignore, its bbox has a positive-area intersection
with the image rectangle, and its category id is among the known category
ids; every included instance has `ignore_flag` 1 exactly when `iscrowd`
and 0 otherwise, and its bbox is converted from `[x, y, w, h]` to
`[x, y, x + w, y + h]`. -/
theorem parse_data_info_instances (cat_ids : List ℤ) (img : RawImg)
    (anns : List RawAnn) :
    cityPersonParseInstances cat_ids img anns
      = (anns.filter (includedAnn cat_ids img)).map (claimedInstance cat_ids) ∧
    cocoPersonParseInstances cat_ids img anns
      = (anns.filter (includedAnn cat_ids img)).map (claimedInstance cat_ids) := by
  refine ⟨city_parse_filter_map cat_ids img anns, ?_⟩
  rw [coco_parse_eq_city]
  exact city_parse_filter_map cat_ids img anns

lemma dedup_length_eq_iff {α : Type} [DecidableEq α] (l : List α) :
    l.dedup.length = l.length ↔ l.Nodup := by
  constructor
  · intro h
    have he := (List.dedup_sublist l).eq_of_length h
    rw [← he]
    exact List.nodup_dedup l
  · intro h
    rw [List.dedup_eq_self.2 h]

/-- C10: `load_data_list` of both dataset adapters fails its assertion
exactly when the annotation ids collected across all images are not
pairwise distinct; otherwise it returns exactly one parsed data entry per
image id, in the order the image ids are returned by the COCO api. -/
theorem load_data_list_spec (cat_ids : List ℤ) (dataPfxImg ann_file : String)
    (entries : List CocoImgEntry) :
    cityPersonLoadDataList cat_ids dataPfxImg ann_file entries
      = (if (totalAnnIds entries).Nodup
         then Except.ok (entries.map (fun e =>
           cityPersonParseDataInfo cat_ids dataPfxImg e.img_id e.info
             (e.anns.map Prod.snd)))
         else Except.error
           ("Annotation ids in " ++ ann_file ++ " are not unique!")) ∧
    cocoPersonLoadDataList cat_ids dataPfxImg ann_file entries
      = (if (totalAnnIds entries).Nodup
         then Except.ok (entries.map (fun e =>
           cocoPersonParseDataInfo cat_ids dataPfxImg e.img_id e.info
             (e.anns.map Prod.snd)))
         else Except.error
           ("Annotation ids in " ++ ann_file ++ " are not unique!")) := by
  by_cases h : (totalAnnIds entries).Nodup
  · rw [if_pos h, if_pos h]
    constructor
    · unfold cityPersonLoadDataList
      rw [if_pos ((dedup_length_eq_iff _).2 h)]
    · unfold cocoPersonLoadDataList
      rw [if_pos ((dedup_length_eq_iff _).2 h)]
  · rw [if_neg h, if_neg h]
    constructor
    · unfold cityPersonLoadDataList
      rw [if_neg (fun hc => h ((dedup_length_eq_iff _).1 hc))]
    · unfold cocoPersonLoadDataList
      rw [if_neg (fun hc => h ((dedup_length_eq_iff _).1 hc))]

lemma formatImage_eq_zip (idx : ℕ) (r : DetResult)
    (h1 : r.labels.length = r.bboxes.length)
    (h2 : r.labels.length = r.scores.length) :
    formatImageRecords idx r
      = (r.bboxes.zip r.scores).map (fun bs =>
          { image_id := r.img_id.getD (idx : ℤ)
            bbox := [bs.1.x1, bs.1.y1, bs.1.x2 - bs.1.x1, bs.1.y2 - bs.1.y1]
            score := bs.2
            category_id := 1 }) := by
  apply List.ext_getElem
  · simp [formatImageRecords, ← h1, ← h2]
  · intro i hLi hRi
    have hi : i < r.labels.length := by
      simpa [formatImageRecords] using hLi
    have hib : i < r.bboxes.length := h1 ▸ hi
    have his : i < r.scores.length := h2 ▸ hi
    simp only [formatImageRecords, List.getElem_map, List.getElem_range,
      List.getElem_zip]
    rw [List.getD_eq_getElem r.bboxes default hib,
      List.getD_eq_getElem r.scores 0 his]
    rfl

/-- C3: `CityPersonMetric.format_results` converts every detection of
every image into one canonical record: `image_id` is the result's
`img_id` (or the enumeration index when absent), `bbox` is the box
converted from `xyxy` to `xywh`, `score` is the detection score, and
`category_id` is always 1 regardless of the label. -/
theorem format_results_records (results : List DetResult)
    (h : ∀ r ∈ results,
      r.labels.length = r.bboxes.length ∧ r.labels.length = r.scores.length) :
    formatRecords results
      = (results.enum.map (fun p =>
          (p.2.bboxes.zip p.2.scores).map (fun bs =>
            { image_id := p.2.img_id.getD (p.1 : ℤ)
              bbox := [bs.1.x1, bs.1.y1, bs.1.x2 - bs.1.x1, bs.1.y2 - bs.1.y1]
              score := bs.2
              category_id := 1 : JsonRecord }))).flatten := by
  unfold formatRecords
  congr 1
  apply List.map_congr_left
  intro p hp
  have hmem : p.2 ∈ results := by
    have hp2 := List.mk_mem_enum_iff_getElem?.1 (by simpa using hp)
    exact List.getElem?_mem hp2
  exact formatImage_eq_zip p.1 p.2 (h p.2 hmem).1 (h p.2 hmem).2

/-- Closed witness for the C3 theorem at a concrete prediction list. -/
theorem format_results_records_witness :
    (∀ r ∈ [({ img_id := some 7, labels := [3], bboxes := [⟨1, 2, 4, 6⟩],
               scores := [1/2] } : DetResult),
            ({ img_id := none, labels := [0, 5],
               bboxes := [⟨0, 0, 1, 1⟩, ⟨2, 2, 3, 5⟩],
               scores := [1/4, 3/4] } : DetResult)],
      r.labels.length = r.bboxes.length ∧ r.labels.length = r.scores.length) ∧
    formatRecords
        [({ img_id := some 7, labels := [3], bboxes := [⟨1, 2, 4, 6⟩],
            scores := [1/2] } : DetResult),
         ({ img_id := none, labels := [0, 5],
            bboxes := [⟨0, 0, 1, 1⟩, ⟨2, 2, 3, 5⟩],
            scores := [1/4, 3/4] } : DetResult)]
      = ([({ img_id := some 7, labels := [3], bboxes := [⟨1, 2, 4, 6⟩],
             scores := [1/2] } : DetResult),
          ({ img_id := none, labels := [0, 5],
             bboxes := [⟨0, 0, 1, 1⟩, ⟨2, 2, 3, 5⟩],
             scores := [1/4, 3/4] } : DetResult)].enum.map (fun p =>
          (p.2.bboxes.zip p.2.scores).map (fun bs =>
            { image_id := p.2.img_id.getD (p.1 : ℤ)
              bbox := [bs.1.x1, bs.1.y1, bs.1.x2 - bs.1.x1, bs.1.y2 - bs.1.y1]
              score := bs.2
              category_id := 1 : JsonRecord }))).flatten :=
  ⟨by decide, format_results_records _ (by decide)⟩

/-- Counterexample to C6 as stated for every result list:
`CityPersonDataset.format_results` asserts `len(results) == len(self)`
before writing anything, so a result list whose length differs from the
dataset length raises AssertionError and neither writes a file nor
returns a path. -/
theorem dataset_format_results_length_assert :
    datasetFormatResults 2 "tmpdir" [[[0, 0, 1, 1, 1/2]]] (some "out")
      = Except.error "The length of results is not equal to the dataset len" :=
  rfl

/-- C6 (amended: the dataset version writes only when the result list has
one entry per dataset image, as its assert demands; the metric version
has no such check — its asserts are commented out): both `format_results`
implementations write all formatted records into a single json file whose
name is the chosen prefix followed by `.bbox.json` and return that path;
with no `jsonfile_prefix` a temporary directory is created and returned
alongside, otherwise the returned `tmp_dir` is `None`. -/
theorem format_results_json_file (tmpName : String) (rs : List DetResult)
    (datasetLen : ℕ) (ds : List (List (List ℚ))) (p : String)
    (h : ds.length = datasetLen) :
    ((metricFormatResults tmpName rs (some p)).1 = p ++ ".bbox.json" ∧
     (metricFormatResults tmpName rs (some p)).2.1 = none ∧
     (metricFormatResults tmpName rs (some p)).2.2
        = (p ++ ".bbox.json", formatRecords rs)) ∧
    ((metricFormatResults tmpName rs none).1
        = osJoin tmpName "results" ++ ".bbox.json" ∧
     (metricFormatResults tmpName rs none).2.1 = some tmpName ∧
     (metricFormatResults tmpName rs none).2.2
        = (osJoin tmpName "results" ++ ".bbox.json", formatRecords rs)) ∧
    datasetFormatResults datasetLen tmpName ds (some p)
      = Except.ok (p ++ ".bbox.json", none,
          (p ++ ".bbox.json", dsFormatRecords ds)) ∧
    datasetFormatResults datasetLen tmpName ds none
      = Except.ok (osJoin tmpName "results" ++ ".bbox.json", some tmpName,
          (osJoin tmpName "results" ++ ".bbox.json", dsFormatRecords ds)) := by
  refine ⟨⟨rfl, rfl, rfl⟩, ⟨rfl, rfl, rfl⟩, ?_, ?_⟩
  · unfold datasetFormatResults
    rw [if_pos h]
  · unfold datasetFormatResults
    rw [if_pos h]

/-- Closed witness for the amended C6 theorem: a one-image dataset with a
one-entry result list. -/
theorem format_results_json_file_witness :
    (([[[0, 0, 1, 1, 1/2]]] : List (List (List ℚ))).length = 1) ∧
    (((metricFormatResults "t" [] (some "pre")).1 = "pre" ++ ".bbox.json" ∧
      (metricFormatResults "t" [] (some "pre")).2.1 = none ∧
      (metricFormatResults "t" [] (some "pre")).2.2
         = ("pre" ++ ".bbox.json", formatRecords [])) ∧
     ((metricFormatResults "t" [] none).1
         = osJoin "t" "results" ++ ".bbox.json" ∧
      (metricFormatResults "t" [] none).2.1 = some "t" ∧
      (metricFormatResults "t" [] none).2.2
         = (osJoin "t" "results" ++ ".bbox.json", formatRecords [])) ∧
     datasetFormatResults 1 "t" [[[0, 0, 1, 1, 1/2]]] (some "pre")
       = Except.ok ("pre" ++ ".bbox.json", none,
           ("pre" ++ ".bbox.json", dsFormatRecords [[[0, 0, 1, 1, 1/2]]])) ∧
     datasetFormatResults 1 "t" [[[0, 0, 1, 1, 1/2]]] none
       = Except.ok (osJoin "t" "results" ++ ".bbox.json", some "t",
           (osJoin "t" "results" ++ ".bbox.json",
            dsFormatRecords [[[0, 0, 1, 1, 1/2]]]))) :=
  ⟨rfl, format_results_json_file "t" [] 1 [[[0, 0, 1, 1, 1/2]]] "pre" rfl⟩

/-- Counterexample to C1 as stated for every list: on the empty
processed-results list, `gts, preds = zip(*results)` fails to unpack
(ValueError), so `compute_metrics` returns no dictionary at all. -/
theorem compute_metrics_empty_crash :
    computeMetrics (fun _ _ => 0) "ann.json" "tmpdir" [] = none := rfl

/-- C1 (amended to non-empty results lists): `compute_metrics` evaluates
the detections under the four setups 0, 1, 2, 3 in that order — for each
setup loading the ground truth and the detection file, then
`evaluate(id_setup)`, then `accumulate()`, then the summarize step — and
returns a dictionary with exactly the four keys `Reasonable`,
`Reasonable_small`, `Reasonable_occ=heavy` and `all`, whose values are
the summarized scalar Miss Rates of setups 0, 1, 2, 3 respectively. -/
theorem compute_metrics_four_setups (mr : List JsonRecord → ℕ → ℚ)
    (ann_file tmpName : String) (results : List (GtRecord × DetResult))
    (h : results ≠ []) :
    computeMetrics mr ann_file tmpName results
      = some
        ([EvalEvent.loadGT ann_file,
          EvalEvent.loadRes (osJoin tmpName "results" ++ ".bbox.json"),
          EvalEvent.evaluate 0, EvalEvent.accumulate, EvalEvent.summarize 0,
          EvalEvent.loadGT ann_file,
          EvalEvent.loadRes (osJoin tmpName "results" ++ ".bbox.json"),
          EvalEvent.evaluate 1, EvalEvent.accumulate, EvalEvent.summarize 1,
          EvalEvent.loadGT ann_file,
          EvalEvent.loadRes (osJoin tmpName "results" ++ ".bbox.json"),
          EvalEvent.evaluate 2, EvalEvent.accumulate, EvalEvent.summarize 2,
          EvalEvent.loadGT ann_file,
          EvalEvent.loadRes (osJoin tmpName "results" ++ ".bbox.json"),
          EvalEvent.evaluate 3, EvalEvent.accumulate, EvalEvent.summarize 3],
         [("Reasonable", mr (formatRecords (results.map Prod.snd)) 0),
          ("Reasonable_small", mr (formatRecords (results.map Prod.snd)) 1),
          ("Reasonable_occ=heavy", mr (formatRecords (results.map Prod.snd)) 2),
          ("all", mr (formatRecords (results.map Prod.snd)) 3)]) := by
  unfold computeMetrics
  rw [if_neg (by simpa [List.isEmpty_iff] using h)]
  rfl

/-- Closed witness for the amended C1 theorem at a one-element results
list. -/
theorem compute_metrics_four_setups_witness :
    ([((⟨2048, 1024, 11⟩ : GtRecord),
       ({ img_id := some 11, labels := [], bboxes := [], scores := [] }
         : DetResult))] ≠ []) ∧
    computeMetrics (fun _ _ => (7 : ℚ)) "gt.json" "scratchdir"
        [((⟨2048, 1024, 11⟩ : GtRecord),
          ({ img_id := some 11, labels := [], bboxes := [], scores := [] }
            : DetResult))]
      = some
        ([EvalEvent.loadGT "gt.json",
          EvalEvent.loadRes (osJoin "scratchdir" "results" ++ ".bbox.json"),
          EvalEvent.evaluate 0, EvalEvent.accumulate, EvalEvent.summarize 0,
          EvalEvent.loadGT "gt.json",
          EvalEvent.loadRes (osJoin "scratchdir" "results" ++ ".bbox.json"),
          EvalEvent.evaluate 1, EvalEvent.accumulate, EvalEvent.summarize 1,
          EvalEvent.loadGT "gt.json",
          EvalEvent.loadRes (osJoin "scratchdir" "results" ++ ".bbox.json"),
          EvalEvent.evaluate 2, EvalEvent.accumulate, EvalEvent.summarize 2,
          EvalEvent.loadGT "gt.json",
          EvalEvent.loadRes (osJoin "scratchdir" "results" ++ ".bbox.json"),
          EvalEvent.evaluate 3, EvalEvent.accumulate, EvalEvent.summarize 3],
         [("Reasonable", (7 : ℚ)), ("Reasonable_small", (7 : ℚ)),
          ("Reasonable_occ=heavy", (7 : ℚ)), ("all", (7 : ℚ))]) :=
  ⟨List.cons_ne_nil _ _,
   compute_metrics_four_setups (fun _ _ => (7 : ℚ)) "gt.json" "scratchdir" _
     (List.cons_ne_nil _ _)⟩

/-- C7: the metric dictionary computed by `compute_metrics` does not
depend on the fresh temporary-directory name — the only quantity that
varies between two runs on the same detections and annotation file — so
the evaluation is a deterministic function of the detections and the
annotations. -/
theorem compute_metrics_deterministic (mr : List JsonRecord → ℕ → ℚ)
    (ann_file tmp1 tmp2 : String) (results : List (GtRecord × DetResult)) :
    Option.map (fun p => p.2) (computeMetrics mr ann_file tmp1 results)
      = Option.map (fun p => p.2) (computeMetrics mr ann_file tmp2 results) := by
  unfold computeMetrics
  by_cases h : results.isEmpty = true
  · rw [if_pos h, if_pos h]
  · rw [if_neg h, if_neg h]
    rfl

/-- C4: the code contradicts its own docstring — `__init__` never assigns
`self.iou_thres` (advertised with default 0.5), so `get_ignores` raises
`AttributeError` on every nonempty ground-truth ignore-box array; only
the empty-array branch, which returns 0, is reachable. -/
theorem get_ignores_attribute_missing :
    (initMetricState "ann.json" (MetricArg.multi ["MR"]) false none).iou_thres
        = none ∧
    getIgnores (initMetricState "ann.json" (MetricArg.multi ["MR"]) false none)
        [⟨0, 0, 2, 2⟩] [⟨1, 1, 3, 3⟩]
      = Except.error "AttributeError: iou_thres" ∧
    getIgnores (initMetricState "ann.json" (MetricArg.multi ["MR"]) false none)
        [⟨0, 0, 2, 2⟩] []
      = Except.ok 0 :=
  ⟨rfl, rfl, rfl⟩

lemma pickBestAux_spec (thr : ℚ) (d : Box) (matched : List ℕ)
    (gts0 : List (ℕ × Box)) :
    ∀ (gs : List (ℕ × Box)) (acc : Option ℕ × ℚ),
      (∀ x ∈ gs, x ∈ gts0) →
      thr ≤ acc.2 →
      (∀ g, acc.1 = some g →
        g ∉ matched ∧ ∃ b, (g, b) ∈ gts0 ∧ thr ≤ iouOverlap d b) →
      thr ≤ (pickBestAux d matched gs acc).2 ∧
      ∀ g, (pickBestAux d matched gs acc).1 = some g →
        g ∉ matched ∧ ∃ b, (g, b) ∈ gts0 ∧ thr ≤ iouOverlap d b := by
  intro gs
  induction gs with
  | nil =>
    intro acc _ h2 h3
    exact ⟨h2, h3⟩
  | cons g gs ih =>
    intro acc hsub h2 h3
    have hsub' : ∀ x ∈ gs, x ∈ gts0 :=
      fun x hx => hsub x (List.mem_cons_of_mem g hx)
    by_cases hm : g.1 ∈ matched
    · simp only [pickBestAux, if_pos hm]
      exact ih acc hsub' h2 h3
    · by_cases hlt : iouOverlap d g.2 < acc.2
      · simp only [pickBestAux, if_neg hm, if_pos hlt]
        exact ih acc hsub' h2 h3
      · simp only [pickBestAux, if_neg hm, if_neg hlt]
        apply ih _ hsub'
        · exact le_trans h2 (not_lt.1 hlt)
        · intro g' hg'
          have hgg : g' = g.1 := (Option.some.injEq _ _ ▸ hg').symm
          subst hgg
          exact ⟨hm, g.2, hsub g (List.mem_cons_self g gs),
            le_trans h2 (not_lt.1 hlt)⟩

lemma pickBest_spec (thr : ℚ) (d : Box) (gts : List (ℕ × Box))
    (matched : List ℕ) (g : ℕ)
    (h : pickBest thr d gts matched = some g) :
    g ∉ matched ∧ ∃ b, (g, b) ∈ gts ∧ thr ≤ iouOverlap d b :=
  (pickBestAux_spec thr d matched gts gts (none, thr) (fun _ hx => hx)
    (le_refl thr) (fun _ hg => Option.noConfusion hg)).2 g h

lemma greedyAux_mem (thr : ℚ) (gts : List (ℕ × Box)) :
    ∀ (ds : List Box) (i : ℕ) (matched : List ℕ) (p : ℕ × ℕ),
      p ∈ greedyAux thr gts ds i matched →
      (i ≤ p.1 ∧ p.1 - i < ds.length) ∧ p.2 ∉ matched ∧
      ∃ b, (p.2, b) ∈ gts ∧ thr ≤ iouOverlap (ds.getD (p.1 - i) default) b := by
  intro ds
  induction ds with
  | nil =>
    intro i matched p hp
    simp [greedyAux] at hp
  | cons d ds ih =>
    intro i matched p hp
    rw [greedyAux] at hp
    cases hpb : pickBest thr d gts matched with
    | none =>
      rw [hpb] at hp
      obtain ⟨⟨h1, h2⟩, h3, b, hb, hiou⟩ := ih (i + 1) matched p hp
      have hge : i ≤ p.1 := le_trans (Nat.le_succ i) h1
      have hidx : p.1 - i = (p.1 - (i + 1)) + 1 := by omega
      refine ⟨⟨hge, by simp; omega⟩, h3, b, hb, ?_⟩
      rw [hidx]
      simpa using hiou
    | some g =>
      rw [hpb] at hp
      rcases List.mem_cons.1 hp with heq | htail
      · subst heq
        obtain ⟨hnm, b, hb, hiou⟩ := pickBest_spec thr d gts matched g hpb
        refine ⟨⟨le_refl i, by simp⟩, hnm, b, hb, ?_⟩
        simpa using hiou
      · obtain ⟨⟨h1, h2⟩, h3, b, hb, hiou⟩ := ih (i + 1) (g :: matched) p htail
        have hge : i ≤ p.1 := le_trans (Nat.le_succ i) h1
        have hnm : p.2 ∉ matched :=
          fun hmem => h3 (List.mem_cons_of_mem g hmem)
        have hidx : p.1 - i = (p.1 - (i + 1)) + 1 := by omega
        refine ⟨⟨hge, by simp; omega⟩, hnm, b, hb, ?_⟩
        rw [hidx]
        simpa using hiou

lemma greedyAux_fst_nodup (thr : ℚ) (gts : List (ℕ × Box)) :
    ∀ (ds : List Box) (i : ℕ) (matched : List ℕ),
      ((greedyAux thr gts ds i matched).map Prod.fst).Nodup := by
  intro ds
  induction ds with
  | nil =>
    intro i matched
    simp [greedyAux]
  | cons d ds ih =>
    intro i matched
    cases hpb : pickBest thr d gts matched with
    | none =>
      simpa only [greedyAux, hpb] using ih (i + 1) matched
    | some g =>
      simp only [greedyAux, hpb, List.map_cons]
      refine List.nodup_cons.2 ⟨?_, ih (i + 1) (g :: matched)⟩
      intro hmem
      obtain ⟨p, hp, hfst⟩ := List.mem_map.1 hmem
      have h1 := (greedyAux_mem thr gts ds (i + 1) (g :: matched) p hp).1.1
      omega

lemma greedyAux_snd_nodup (thr : ℚ) (gts : List (ℕ × Box)) :
    ∀ (ds : List Box) (i : ℕ) (matched : List ℕ),
      ((greedyAux thr gts ds i matched).map Prod.snd).Nodup := by
  intro ds
  induction ds with
  | nil =>
    intro i matched
    simp [greedyAux]
  | cons d ds ih =>
    intro i matched
    cases hpb : pickBest thr d gts matched with
    | none =>
      simpa only [greedyAux, hpb] using ih (i + 1) matched
    | some g =>
      simp only [greedyAux, hpb, List.map_cons]
      refine List.nodup_cons.2 ⟨?_, ih (i + 1) (g :: matched)⟩
      intro hmem
      obtain ⟨p, hp, hsnd⟩ := List.mem_map.1 hmem
      have h3 := (greedyAux_mem thr gts ds (i + 1) (g :: matched) p hp).2.1
      exact h3 (hsnd ▸ List.mem_cons_self g matched)

/-- C2: the greedy Caltech/CityPersons-style IoU matcher produces a
matching — no detection index appears twice and no ground-truth index
appears twice — and every matched pair points at a real detection and a
real ground truth whose IoU reaches the threshold. -/
theorem miss_rate_matching (thr : ℚ) (dts gts : List Box) :
    ((greedyMatch thr dts gts).map Prod.fst).Nodup ∧
    ((greedyMatch thr dts gts).map Prod.snd).Nodup ∧
    ∀ p ∈ greedyMatch thr dts gts,
      p.1 < dts.length ∧ p.2 < gts.length ∧
      ∃ b, (p.2, b) ∈ gts.enum ∧
        thr ≤ iouOverlap (dts.getD p.1 default) b := by
  refine ⟨greedyAux_fst_nodup thr gts.enum dts 0 [],
    greedyAux_snd_nodup thr gts.enum dts 0 [], ?_⟩
  intro p hp
  obtain ⟨⟨_, h2⟩, _, b, hb, hiou⟩ :=
    greedyAux_mem thr gts.enum dts 0 [] p hp
  have hp2 : p.2 < gts.length := by
    have hget := List.mk_mem_enum_iff_getElem?.1 (by simpa using hb)
    exact (List.getElem?_eq_some_iff.1 hget).1
  refine ⟨by simpa using h2, hp2, b, hb, by simpa using hiou⟩

/-- Closed witness for the C2 theorem: one detection matching one ground
truth at IoU 1. -/
theorem miss_rate_matching_witness :
    (((0 : ℕ), (0 : ℕ)) ∈ greedyMatch (1/2) [⟨0, 0, 2, 2⟩] [⟨0, 0, 2, 2⟩]) ∧
    (((0 : ℕ), (0 : ℕ)).1 < ([(⟨0, 0, 2, 2⟩ : Box)]).length ∧
     ((0 : ℕ), (0 : ℕ)).2 < ([(⟨0, 0, 2, 2⟩ : Box)]).length ∧
     ∃ b, (((0 : ℕ), (0 : ℕ)).2, b) ∈ ([(⟨0, 0, 2, 2⟩ : Box)]).enum ∧
       (1/2 : ℚ) ≤ iouOverlap
         (([(⟨0, 0, 2, 2⟩ : Box)]).getD ((0 : ℕ), (0 : ℕ)).1 default) b) := by
  have hiou : iouOverlap (⟨0, 0, 2, 2⟩ : Box) ⟨0, 0, 2, 2⟩ = 1 := by
    norm_num [iouOverlap]
  have hmem :
      (((0 : ℕ), (0 : ℕ)) ∈ greedyMatch (1/2) [⟨0, 0, 2, 2⟩] [⟨0, 0, 2, 2⟩]) := by
    norm_num [greedyMatch, greedyAux, pickBest, pickBestAux, List.enum,
      List.enumFrom, hiou]
  exact ⟨hmem,
    (miss_rate_matching (1/2) [⟨0, 0, 2, 2⟩] [⟨0, 0, 2, 2⟩]).2.2 (0, 0) hmem⟩

end NASPED
